import Mathlib

/-!
Verification development for the Homie dashboard repository.

Shallow embedding of the aggregation layer of `server.js` (the proxy
endpoint handlers) and of the client-side normalizers in `src/app.js`.
JavaScript values are modelled by the inductive type `JVal` (numbers as
rationals), environment configuration by `Env` (a field is `none` when the
corresponding variable is unset), and the outcome of one outbound
`fetch` by `FetchResult` (a completed response carries its HTTP status,
its body text, and the result of attempting `JSON.parse` on that text;
a rejected fetch carries the stringified error).  Handlers are pure
functions from configuration, request parameters and the upstream
outcome to the HTTP response, the list of appended audit-log records,
and the number of outbound network calls performed.  Timestamps and the
`body_snippet` log field are not modelled (wall-clock time and
`JSON.stringify` of arbitrary bodies play no role in the claims below).
-/

/-- Model of a JavaScript/JSON value.  Numbers are modelled as rationals. -/
inductive JVal where
  | null : JVal
  | bool : Bool → JVal
  | num : ℚ → JVal
  | str : String → JVal
  | arr : List JVal → JVal
  | obj : List (String × JVal) → JVal

/-- JavaScript truthiness of a value: `null`, `false`, `0` and the empty
string are falsy; arrays and objects are always truthy. -/
def jsTruthy : JVal → Bool
  | .null => false
  | .bool b => b
  | .num q => q != 0
  | .str s => s != ""
  | .arr _ => true
  | .obj _ => true

/-- Property access `v[k]` on a JavaScript value: defined (`some`) only on
objects that carry the key; everything else yields `undefined` (`none`). -/
def jlookup : JVal → String → Option JVal
  | .obj fs, k => (fs.find? (fun p => p.1 == k)).map (fun p => p.2)
  | _, _ => none

/-- Truthiness of a possibly-undefined value (`undefined` is falsy). -/
def truthyOpt : Option JVal → Bool
  | some v => jsTruthy v
  | none => false

/-- View of a possibly-undefined value as an array, mirroring
`Array.isArray`. -/
def asArr : Option JVal → Option (List JVal)
  | some (.arr xs) => some xs
  | _ => none

/-- Strict equality `v === s` of a JavaScript value against a string
literal: true exactly for the string itself. -/
def isStrVal : JVal → String → Bool
  | .str s, t => s == t
  | _, _ => false

/-- Projection of a string-valued field of an object. -/
def jGetStr (v : JVal) (k : String) : Option String :=
  match jlookup v k with
  | some (.str s) => some s
  | _ => none

/-- Model of the JavaScript expression `x || null` on a string-or-unset
configuration value: the empty string is falsy and collapses to null. -/
def orNull : Option String → Option String
  | some "" => none
  | x => x

/-- Model of the JavaScript expression `x || d` on a string-or-unset value
with a string default `d`. -/
def jsOrStr (v : Option String) (d : String) : String :=
  match orNull v with
  | some s => s
  | none => d

/-- ASCII lower-casing of a character (A-Z mapped to a-z). -/
def lowerChar (c : Char) : Char :=
  if 65 ≤ c.toNat ∧ c.toNat ≤ 90 then Char.ofNat (c.toNat + 32) else c

/-- ASCII lower-casing of a string, modelling `String.toLowerCase` on the
character ranges exercised here. -/
def lowerStr (s : String) : String := String.mk (s.data.map lowerChar)

/-- Check that the first list is an initial segment of the second. -/
def startsWithList : List Char → List Char → Bool
  | [], _ => true
  | _ :: _, [] => false
  | n :: ns, c :: cs => n == c && startsWithList ns cs

/-- Substring test on character lists, modelling `String.includes`. -/
def containsList (hay needle : List Char) : Bool :=
  match hay with
  | [] => needle.isEmpty
  | c :: t => startsWithList needle (c :: t) || containsList t needle

/-- Substring test on strings, modelling `hay.includes(needle)`. -/
def strContains (hay needle : String) : Bool := containsList hay.data needle.data

/-- Upper-case hexadecimal digit for a value below 16. -/
def hexDigit (n : Nat) : Char :=
  if n < 10 then Char.ofNat (48 + n) else Char.ofNat (55 + n)

/-- Lower-case hexadecimal digit for a value below 16. -/
def hexDigitLower (n : Nat) : Char :=
  if n < 10 then Char.ofNat (48 + n) else Char.ofNat (87 + n)

/-- UTF-8 encoding of one Unicode scalar value as a list of byte values. -/
def utf8EncodeChar (c : Char) : List Nat :=
  let n := c.toNat
  if n < 128 then [n]
  else if n < 2048 then [192 + n / 64, 128 + n % 64]
  else if n < 65536 then [224 + n / 4096, 128 + n / 64 % 64, 128 + n % 64]
  else [240 + n / 262144, 128 + n / 4096 % 64, 128 + n / 64 % 64, 128 + n % 64]

/-- Bytes that `encodeURIComponent` leaves unescaped: ASCII letters,
digits, and `- _ . ! ~ * + ( )` with `+` replaced by the actual set
`- _ . ! ~ * apostrophe ( )`. -/
def isUnreservedByte (b : Nat) : Bool :=
  (65 ≤ b && b ≤ 90) || (97 ≤ b && b ≤ 122) || (48 ≤ b && b ≤ 57) ||
  b == 45 || b == 95 || b == 46 || b == 33 || b == 126 || b == 42 ||
  b == 39 || b == 40 || b == 41

/-- Percent-encoding of one byte as performed by `encodeURIComponent`. -/
def encByte (b : Nat) : List Char :=
  if isUnreservedByte b then [Char.ofNat b]
  else ['%', hexDigit (b / 16 % 16), hexDigit (b % 16)]

/-- Model of the JavaScript `encodeURIComponent` function on strings of
Unicode scalar values. -/
def encodeURIComponent (s : String) : String :=
  String.mk ((s.data.flatMap utf8EncodeChar).flatMap encByte)

/-- Case-insensitive (ASCII) initial-segment test. -/
def ciStartsWith : List Char → List Char → Bool
  | [], _ => true
  | _ :: _, [] => false
  | n :: ns, c :: cs => lowerChar n == lowerChar c && ciStartsWith ns cs

/-- Model of the non-global, case-insensitive JavaScript replacement
`url.replace(re, "$1[REDACTED]")` where `re` matches `[?&]`, then the
parameter name, then `=`, then a maximal run of non-`&` characters.
Only the leftmost match is rewritten; the `$1` group keeps the original
characters of the separator and `name=` part. -/
def scrubList (name : List Char) : List Char → List Char
  | [] => []
  | c :: rest =>
    if (c == '?' || c == '&') && ciStartsWith (name ++ ['=']) rest then
      c :: (rest.take (name.length + 1) ++ "[REDACTED]".data ++
            (rest.drop (name.length + 1)).dropWhile (fun x => x != '&'))
    else c :: scrubList name rest

/-- String form of `scrubList`: redacts the value of the query parameter
`name` in `url`. -/
def scrubParam (name url : String) : String := String.mk (scrubList name.data url.data)

/-- Process environment of `server.js`; a field is `none` when the
variable is unset. -/
structure Env where
  PROXMOX_HOST : Option String := none
  PROXMOX_API_TOKEN : Option String := none
  PODBROADCAST_API_KEY : Option String := none
  TAUTULLI_API_KEY : Option String := none
  TAUTULLI_HOST : Option String := none
  PROXMOX_CLIENT_API_BASE : Option String := none
  AI_ADDRESS : Option String := none

/-- Outcome of one outbound `fetch`: either a completed upstream response
(HTTP status, body text, and the result of `JSON.parse` on that text, `none`
when parsing fails) or a network error with its stringified message. -/
inductive FetchResult where
  | resp (status : Nat) (text : String) (json : Option JVal)
  | netErr (error : String)

/-- Body of a client-visible response: `res.json(v)` or `res.send(text)`. -/
inductive Body where
  | json : JVal → Body
  | text : String → Body

/-- Client-visible HTTP response of a proxy handler. -/
structure HttpResponse where
  status : Nat
  body : Body

/-- One audit record appended by `appendLog` (timestamp and body snippet
not modelled; absent fields are `none`). -/
structure LogEntry where
  route : String
  url : Option String := none
  status : Option Nat := none
  node : Option String := none
  vmid : Option String := none
  error : Option String := none
deriving DecidableEq

/-- Value of the `PROXMOX_BASE` constant of `server.js`. -/
def proxmoxBase (env : Env) : String :=
  "https://" ++ jsOrStr env.PROXMOX_HOST "aj-proxmox.duckdns.org" ++ ":8006"

/-- Handler of `GET /api/proxmox/nodes/:node/status` (server.js lines
64-92): passthrough of the upstream body with the upstream status; `500`
with the error message on a network failure; one audit record either way
(the code labels this route `/api/proxmox/root` in its log lines). -/
def nodeStatusHandler (env : Env) (node : String) (up : FetchResult) :
    HttpResponse × List LogEntry :=
  let url := proxmoxBase env ++ "/api2/json/nodes/" ++ encodeURIComponent node ++ "/status"
  match up with
  | .resp st text _ =>
      (⟨st, .text text⟩,
       [{ route := "/api/proxmox/root", url := some url, status := some st }])
  | .netErr e =>
      (⟨500, .json (.obj [("error", .str e)])⟩,
       [{ route := "/api/proxmox/root", url := some url, error := some e }])

/-- Node selected by `GET /api/proxmox/vm/:vmid/online`:
`req.query.node || "pve-gamehost"` (server.js line 97). -/
def vmOnlineNode (queryNode : Option String) : String := jsOrStr queryNode "pve-gamehost"

/-- Upstream URL queried by `GET /api/proxmox/vm/:vmid/online`
(server.js line 98). -/
def vmOnlineUrl (env : Env) (vmid : String) (queryNode : Option String) : String :=
  proxmoxBase env ++ "/api2/json/nodes/" ++ encodeURIComponent (vmOnlineNode queryNode) ++
    "/qemu/" ++ encodeURIComponent vmid ++ "/status/current"

/-- Handler of `GET /api/proxmox/vm/:vmid/online` (server.js lines
95-132).  When the parsed body or its `data` field is missing/falsy the
handler responds with `proxRes.status || 502` and a diagnostic object;
otherwise it derives the VM status from `body.data.status ||
(body.data.online ? "running" : "stopped")` and responds `200`. -/
def vmOnlineHandler (env : Env) (vmid : String) (queryNode : Option String)
    (up : FetchResult) : HttpResponse × List LogEntry :=
  let node := vmOnlineNode queryNode
  let url := vmOnlineUrl env vmid queryNode
  match up with
  | .netErr e =>
      (⟨500, .json (.obj [("error", .str e)])⟩,
       [{ route := "/api/proxmox/vm/:vmid/online", url := some url,
          vmid := some vmid, node := some node, error := some e }])
  | .resp st _ bodyOpt =>
      let entry : LogEntry :=
        { route := "/api/proxmox/vm/:vmid/online", url := some url,
          vmid := some vmid, node := some node, status := some st }
      if !truthyOpt (bodyOpt.bind (fun b => jlookup b "data")) then
        (⟨if st = 0 then 502 else st,
          .json (.obj [("vmid", .str vmid), ("node", .str node),
                       ("online", .bool false), ("status", .str "unknown"),
                       ("proxmox_status", .num (st : ℚ)),
                       ("body", bodyOpt.getD .null)])⟩, [entry])
      else
        let data := (bodyOpt.bind (fun b => jlookup b "data")).getD .null
        let vmStatus : JVal :=
          if truthyOpt (jlookup data "status") then (jlookup data "status").getD .null
          else if truthyOpt (jlookup data "online") then .str "running" else .str "stopped"
        let online := isStrVal vmStatus "running" || isStrVal vmStatus "online"
        (⟨200, .json (.obj [("vmid", .str vmid), ("node", .str node),
                            ("online", .bool online), ("status", vmStatus)])⟩, [entry])

/-- Handler of `GET /api/podman/containers` (server.js lines 165-200).
Returns the response, the appended audit records, and the number of
outbound network calls performed.  The success path logs the scrubbed
target URL; the catch path logs the raw `target`.  The `body !== null`
guard of line 190 sends both a parse failure and a body that parses to
JSON null (body text "null") down the raw-text branch, which mirrors
the upstream status. -/
def podmanContainersHandler (env : Env) (up : FetchResult) :
    HttpResponse × List LogEntry × Nat :=
  let key := orNull env.PODBROADCAST_API_KEY
  let target := "http://192.168.0.220:9191/?key=" ++ encodeURIComponent (key.getD "")
  match key with
  | none =>
      (⟨503, .json (.obj [("error", .str "PODBROADCAST_API_KEY not configured")])⟩,
       [{ route := "/api/podman/containers",
          error := some "PODBROADCAST_API_KEY not configured" }], 0)
  | some _ =>
      match up with
      | .resp st text bodyOpt =>
          let scrubbed := scrubParam "key" target
          let entry : LogEntry :=
            { route := "/api/podman/containers", url := some scrubbed, status := some st }
          match bodyOpt with
          | some .null => (⟨if st = 0 then 502 else st, .text text⟩, [entry], 1)
          | some b => (⟨200, .json b⟩, [entry], 1)
          | none => (⟨if st = 0 then 502 else st, .text text⟩, [entry], 1)
      | .netErr e =>
          (⟨500, .json (.obj [("error", .str e)])⟩,
           [{ route := "/api/podman/containers", url := some target, error := some e }], 1)

/-- Handler of `GET /api/tautulli/now_playing` (server.js lines 204-240),
structured like the containers proxy with the `apikey` query parameter;
its `body !== null` guard (line 231) likewise routes a parsed JSON null
down the raw-text branch. -/
def tautulliNowPlayingHandler (env : Env) (up : FetchResult) :
    HttpResponse × List LogEntry × Nat :=
  let key := orNull env.TAUTULLI_API_KEY
  let host := jsOrStr env.TAUTULLI_HOST "192.168.0.234:8181"
  match key with
  | none =>
      (⟨503, .json (.obj [("error", .str "TAUTULLI_API_KEY not configured")])⟩,
       [{ route := "/api/tautulli/now_playing",
          error := some "TAUTULLI_API_KEY not configured" }], 0)
  | some k =>
      let target := "http://" ++ host ++ "/api/v2?apikey=" ++ encodeURIComponent k ++
        "&cmd=get_activity"
      match up with
      | .resp st text bodyOpt =>
          let scrubbed := scrubParam "apikey" target
          let entry : LogEntry :=
            { route := "/api/tautulli/now_playing", url := some scrubbed, status := some st }
          match bodyOpt with
          | some .null => (⟨if st = 0 then 502 else st, .text text⟩, [entry], 1)
          | some b => (⟨200, .json b⟩, [entry], 1)
          | none => (⟨if st = 0 then 502 else st, .text text⟩, [entry], 1)
      | .netErr e =>
          (⟨500, .json (.obj [("error", .str e)])⟩,
           [{ route := "/api/tautulli/now_playing", url := some target, error := some e }], 1)

/-- Escaping of one character as performed by `JSON.stringify` inside a
string literal. -/
def jsonEscapeChar (c : Char) : List Char :=
  if c == '"' then ['\\', '"']
  else if c == '\\' then ['\\', '\\']
  else if c == '\n' then ['\\', 'n']
  else if c == '\r' then ['\\', 'r']
  else if c == '\t' then ['\\', 't']
  else if c.toNat == 8 then ['\\', 'b']
  else if c.toNat == 12 then ['\\', 'f']
  else if c.toNat < 32 then
    ['\\', 'u', '0', '0', hexDigitLower (c.toNat / 16), hexDigitLower (c.toNat % 16)]
  else [c]

/-- JSON string literal for `s`, as produced by `JSON.stringify`. -/
def jsonQuote (s : String) : String :=
  "\"" ++ String.mk (s.data.flatMap jsonEscapeChar) ++ "\""

/-- Handler of `GET /env.js` (server.js lines 254-264): serializes only
the two public configuration values into a script assigning
`window.HOMIE_ENV`. -/
def envJsHandler (env : Env) : String :=
  let clientBase := jsOrStr env.PROXMOX_CLIENT_API_BASE "/api/proxmox"
  let aiAddr := orNull env.AI_ADDRESS
  "window.HOMIE_ENV = \x7b\"PROXMOX_CLIENT_API_BASE\":" ++ jsonQuote clientBase ++
    ",\"AI_ADDRESS\":" ++ (match aiAddr with | some a => jsonQuote a | none => "null") ++
    "\x7d;"

/-- Numeric CPU fields of a node-status payload as read by
`fetchNodeStatus` in `src/app.js` (lines 143 and 160); fields are `none`
when absent (`undefined`) and carry the JavaScript number otherwise. -/
structure NodeData where
  cpu : Option ℚ := none
  cpu_usage : Option ℚ := none

/-- CPU normalization of `fetchNodeStatus` (src/app.js lines 143 and
160): `cpu !== undefined ? cpu * 100 : (cpu_usage !== undefined ?
cpu_usage : null)`, then `typeof cpu === "number" ? Math.min(100, cpu) :
null`. -/
def fetchNodeStatusCpu (d : NodeData) : Option ℚ :=
  let cpu : Option ℚ :=
    match d.cpu with
    | some c => some (c * 100)
    | none => d.cpu_usage
  match cpu with
  | some c => some (min 100 c)
  | none => none

/-- Session-list extraction of `renderTautulli` (src/app.js lines
425-433): after replacing a falsy payload by the empty object, the four
candidate nesting shapes are probed in order and the first one carrying
an array wins; if none does, the session list stays empty. -/
def extractSessions (data0 : JVal) : List JVal :=
  let data := if jsTruthy data0 then data0 else JVal.obj []
  let resp := jlookup data "response"
  let respData := resp.bind (fun r => jlookup r "data")
  let dataData := jlookup data "data"
  match asArr (jlookup data "sessions") with
  | some xs => xs
  | none =>
    match truthyOpt resp, asArr respData with
    | true, some xs => xs
    | _, _ =>
      match truthyOpt resp && truthyOpt respData,
            asArr (respData.bind (fun x => jlookup x "sessions")) with
      | true, some xs => xs
      | _, _ =>
        match truthyOpt dataData,
              asArr (dataData.bind (fun x => jlookup x "sessions")) with
        | true, some xs => xs
        | _, _ => []

/-- Candidate path `data.sessions` of the specification. -/
def sessionPath1 (d : JVal) : Option (List JVal) := asArr (jlookup d "sessions")

/-- Candidate path `data.response.data[]` of the specification. -/
def sessionPath2 (d : JVal) : Option (List JVal) :=
  asArr ((jlookup d "response").bind (fun r => jlookup r "data"))

/-- Candidate path `data.response.data.sessions` of the specification. -/
def sessionPath3 (d : JVal) : Option (List JVal) :=
  asArr (((jlookup d "response").bind (fun r => jlookup r "data")).bind
    (fun x => jlookup x "sessions"))

/-- Candidate path `data.data.sessions` of the specification. -/
def sessionPath4 (d : JVal) : Option (List JVal) := asArr ((jlookup d "data").bind
  (fun x => jlookup x "sessions"))

/-- Modelled from the wording of the specification: the four candidate
paths are tried in order, the first one yielding an array wins, and an
absent or malformed shape yields the empty sequence. -/
def sessionsSpec (d : JVal) : List JVal :=
  match sessionPath1 d with
  | some xs => xs
  | none =>
    match sessionPath2 d with
    | some xs => xs
    | none =>
      match sessionPath3 d with
      | some xs => xs
      | none =>
        match sessionPath4 d with
        | some xs => xs
        | none => []

/-- Fields of one container record as read by `renderPodmanContainers`
(src/app.js lines 254-307); `none` models an absent field.  `Online` and
`Exited` keep their raw JavaScript values because the code compares the
former with `=== true` and takes the truthiness of the latter. -/
structure ContainerRec where
  State : Option String := none
  Status : Option String := none
  Online : Option JVal := none
  ExitCode : Option Int := none
  Exited : Option JVal := none
  StartedAt : Option String := none
  Started : Option String := none
  CreatedAt : Option String := none

/-- Running flag of `renderPodmanContainers` (src/app.js line 257). -/
def isRunning (c : ContainerRec) : Bool :=
  c.State == some "running" ||
  (match c.Status with
   | some s => s != "" && strContains (lowerStr s) "up"
   | none => false) ||
  (match c.Online with
   | some (.bool true) => true
   | _ => false) ||
  (c.ExitCode == some 0 && !truthyOpt c.Exited)

/-- JavaScript whitespace (the class matched by `\s` and removed by
`String.trim`). -/
def isJsSpace (c : Char) : Bool :=
  c == ' ' || c == '\t' || c == '\n' || c == '\r' ||
  c.toNat == 11 || c.toNat == 12 || c.toNat == 160 || c.toNat == 65279 ||
  c.toNat == 5760 || (8192 ≤ c.toNat && c.toNat ≤ 8202) ||
  c.toNat == 8232 || c.toNat == 8233 || c.toNat == 8239 ||
  c.toNat == 8287 || c.toNat == 12288

/-- Model of `String.trim`: strips JavaScript whitespace from both
ends. -/
def jsTrim (s : String) : String :=
  String.mk (((s.data.dropWhile isJsSpace).reverse.dropWhile isJsSpace).reverse)

/-- Leftmost match of the regular expression used at src/app.js line 304
(case-insensitive `Up`, at least one whitespace character, then a maximal
run of non-parenthesis characters); `none` when the expression does not
match. -/
def upMatchList : List Char → Option (List Char)
  | [] => none
  | a :: rest =>
    match rest with
    | b :: c :: cs =>
      if lowerChar a == 'u' && lowerChar b == 'p' && isJsSpace c then
        some (a :: b :: (c :: cs).takeWhile (fun x => x != '(' && x != ')'))
      else upMatchList rest
    | _ => upMatchList rest

/-- Started-at fallback `c.StartedAt || c.Started || c.CreatedAt || null`
(src/app.js line 259). -/
def startedAtOf (c : ContainerRec) : Option String :=
  ((orNull c.StartedAt).orElse (fun _ => orNull c.Started)).orElse
    (fun _ => orNull c.CreatedAt)

/-- Uptime text of `renderPodmanContainers` (src/app.js lines 302-308):
for a non-empty `Status` string, the trimmed leftmost match of the
`Up`-pattern, falling back to the whole `Status`; otherwise the
started-at fallback; otherwise an em dash. -/
def uptimeText (c : ContainerRec) : String :=
  match c.Status with
  | some s =>
    if s != "" then
      match upMatchList s.data with
      | some m => jsTrim (String.mk m)
      | none => s
    else
      match startedAtOf c with
      | some t => t
      | none => "—"
  | none =>
    match startedAtOf c with
    | some t => t
    | none => "—"

/-- C1: the claim asserts that every audit line for a proxied
container-host or media-server call — on the success path and on the
network-failure catch path alike — carries the fixed placeholder in
place of the secret and never the secret itself.  The code violates
this on the catch path: server.js lines 197 and 237 log `url: target`
with the raw, unscrubbed secret, contradicting the code's own comments
("Scrub the API key from the logged URL to avoid writing secrets into
logs").  This theorem evaluates both handlers at the failing input: with
the key set to "supersecret" and the fetch rejecting, the single audit
record of each handler carries the raw secret in its URL and no
placeholder, while the success path of the same handler is redacted. -/
theorem c1_catch_path_logs_raw_secret :
    (podmanContainersHandler { PODBROADCAST_API_KEY := some "supersecret" }
       (.netErr "FetchError: request failed")).2.1 =
      [{ route := "/api/podman/containers",
         url := some "http://192.168.0.220:9191/?key=supersecret",
         error := some "FetchError: request failed" }] ∧
    strContains "http://192.168.0.220:9191/?key=supersecret" "supersecret" = true ∧
    strContains "http://192.168.0.220:9191/?key=supersecret" "[REDACTED]" = false ∧
    (podmanContainersHandler { PODBROADCAST_API_KEY := some "supersecret" }
       (.resp 200 "[]" (some (.arr [])))).2.1 =
      [{ route := "/api/podman/containers",
         url := some "http://192.168.0.220:9191/?key=[REDACTED]",
         status := some 200 }] ∧
    (tautulliNowPlayingHandler { TAUTULLI_API_KEY := some "supersecret" }
       (.netErr "FetchError: request failed")).2.1 =
      [{ route := "/api/tautulli/now_playing",
         url := some "http://192.168.0.234:8181/api/v2?apikey=supersecret&cmd=get_activity",
         error := some "FetchError: request failed" }] ∧
    strContains "http://192.168.0.234:8181/api/v2?apikey=supersecret&cmd=get_activity"
      "supersecret" = true := by
  refine ⟨?_, ?_, ?_, ?_, ?_, ?_⟩ <;> decide

/-- C2: while the corresponding access key is not configured, each of the
two proxies responds 503 with a body naming the missing configuration,
appends one audit record carrying the same error, and performs no
outbound network call (server.js lines 165-171 and 204-210). -/
theorem c2_missing_key_503_logged_no_network (env : Env) (up : FetchResult)
    (hp : orNull env.PODBROADCAST_API_KEY = none)
    (ht : orNull env.TAUTULLI_API_KEY = none) :
    podmanContainersHandler env up =
      (⟨503, .json (.obj [("error", .str "PODBROADCAST_API_KEY not configured")])⟩,
       [{ route := "/api/podman/containers",
          error := some "PODBROADCAST_API_KEY not configured" }], 0) ∧
    tautulliNowPlayingHandler env up =
      (⟨503, .json (.obj [("error", .str "TAUTULLI_API_KEY not configured")])⟩,
       [{ route := "/api/tautulli/now_playing",
          error := some "TAUTULLI_API_KEY not configured" }], 0) := by
  constructor
  · simp [podmanContainersHandler, hp]
  · simp [tautulliNowPlayingHandler, ht]

/-- Witness for C2 at the empty environment and a concrete fetch
outcome. -/
theorem c2_missing_key_503_logged_no_network_witness :
    podmanContainersHandler {} (.netErr "e") =
      (⟨503, .json (.obj [("error", .str "PODBROADCAST_API_KEY not configured")])⟩,
       [{ route := "/api/podman/containers",
          error := some "PODBROADCAST_API_KEY not configured" }], 0) ∧
    tautulliNowPlayingHandler {} (.netErr "e") =
      (⟨503, .json (.obj [("error", .str "TAUTULLI_API_KEY not configured")])⟩,
       [{ route := "/api/tautulli/now_playing",
          error := some "TAUTULLI_API_KEY not configured" }], 0) :=
  c2_missing_key_503_logged_no_network {} (.netErr "e") rfl rfl

/-- C3: the body served by `GET /env.js` is a script assigning exactly
the two public values to `window.HOMIE_ENV`, and it is identical for any
two configurations agreeing on those two public values — in particular
it does not depend on (and hence never includes) the Proxmox API token,
the container-host key or the media-server key. -/
theorem c3_envjs_independent_of_credentials (e1 e2 : Env)
    (hbase : e1.PROXMOX_CLIENT_API_BASE = e2.PROXMOX_CLIENT_API_BASE)
    (hai : e1.AI_ADDRESS = e2.AI_ADDRESS) :
    envJsHandler e1 = envJsHandler e2 ∧
    envJsHandler e1 =
      "window.HOMIE_ENV = \x7b\"PROXMOX_CLIENT_API_BASE\":" ++
        jsonQuote (jsOrStr e1.PROXMOX_CLIENT_API_BASE "/api/proxmox") ++
        ",\"AI_ADDRESS\":" ++
        (match orNull e1.AI_ADDRESS with | some a => jsonQuote a | none => "null") ++
        "\x7d;" := by
  constructor
  · simp [envJsHandler, hbase, hai]
  · rfl

/-- Witness for C3: two configurations with different secrets produce the
identical script. -/
theorem c3_envjs_independent_of_credentials_witness :
    envJsHandler { PROXMOX_API_TOKEN := some "token-one",
                   PODBROADCAST_API_KEY := some "pod-key-one" } =
      envJsHandler { PROXMOX_API_TOKEN := some "token-two",
                     TAUTULLI_API_KEY := some "tau-key-two" } ∧
    envJsHandler { PROXMOX_API_TOKEN := some "token-one",
                   PODBROADCAST_API_KEY := some "pod-key-one" } =
      "window.HOMIE_ENV = \x7b\"PROXMOX_CLIENT_API_BASE\":" ++
        jsonQuote (jsOrStr none "/api/proxmox") ++
        ",\"AI_ADDRESS\":" ++ "null" ++ "\x7d;" :=
  c3_envjs_independent_of_credentials _ _ rfl rfl

/-- C10: a request to the VM-online endpoint that omits the `node` query
parameter is not rejected; the handler substitutes the fixed default
node `pve-gamehost`, builds the same upstream URL as an explicit
`node=pve-gamehost` request, and records that node in its audit line
(server.js lines 95-98). -/
theorem c10_vm_online_default_node (env : Env) (vmid : String) (up : FetchResult) :
    vmOnlineNode none = "pve-gamehost" ∧
    vmOnlineUrl env vmid none = vmOnlineUrl env vmid (some "pve-gamehost") ∧
    ((vmOnlineHandler env vmid none up).2.all
      (fun e => e.node == some "pve-gamehost")) = true := by
  refine ⟨rfl, rfl, ?_⟩
  cases up with
  | netErr e => simp [vmOnlineHandler, vmOnlineNode, jsOrStr, orNull]
  | resp st text j =>
      simp only [vmOnlineHandler, vmOnlineNode, jsOrStr, orNull]
      split <;> simp

/-- Projection of the JSON body of a response (`null` for text bodies). -/
def respJson : HttpResponse → JVal
  | ⟨_, .json v⟩ => v
  | ⟨_, .text _⟩ => .null

/-- C4 counterexample: an upstream response with status 500 whose body
parses as JSON makes the containers proxy answer `res.json(body)`, whose
status is 200, not the upstream 500 the claim requires (server.js lines
190-192). -/
theorem c4_json_body_breaks_status_mirroring :
    (podmanContainersHandler { PODBROADCAST_API_KEY := some "k" }
       (.resp 500 "\x7b\x7d" (some (.obj [])))).1.status = 200 ∧
    (podmanContainersHandler { PODBROADCAST_API_KEY := some "k" }
       (.resp 500 "\x7b\x7d" (some (.obj [])))).1.status ≠ 500 := by
  constructor <;> decide

/-- C4 amended: the node-status proxy always mirrors the upstream status;
the containers and media proxies mirror it for bodies that do not parse
as JSON and for bodies that parse to JSON null (the `body !== null`
guard), with 502 substituted when no status number is available, and
answer 200 whenever the body parses to a non-null JSON value. -/
theorem c4_amended_status_mirroring (env : Env) (node : String) (st : Nat)
    (text : String) (j : Option JVal) (b : JVal) (kP kT : String)
    (hkP : orNull env.PODBROADCAST_API_KEY = some kP)
    (hkT : orNull env.TAUTULLI_API_KEY = some kT)
    (hst : st ≠ 0) (hb : b ≠ JVal.null) :
    (nodeStatusHandler env node (.resp st text j)).1.status = st ∧
    (podmanContainersHandler env (.resp st text none)).1.status = st ∧
    (podmanContainersHandler env (.resp st text (some JVal.null))).1.status = st ∧
    (podmanContainersHandler env (.resp st text (some b))).1.status = 200 ∧
    (tautulliNowPlayingHandler env (.resp st text none)).1.status = st ∧
    (tautulliNowPlayingHandler env (.resp st text (some JVal.null))).1.status = st ∧
    (tautulliNowPlayingHandler env (.resp st text (some b))).1.status = 200 := by
  refine ⟨rfl, ?_, ?_, ?_, ?_, ?_, ?_⟩
  · simp [podmanContainersHandler, hkP, hst]
  · simp [podmanContainersHandler, hkP, hst]
  · cases b with
    | null => exact absurd rfl hb
    | bool x => simp [podmanContainersHandler, hkP]
    | num x => simp [podmanContainersHandler, hkP]
    | str x => simp [podmanContainersHandler, hkP]
    | arr x => simp [podmanContainersHandler, hkP]
    | obj x => simp [podmanContainersHandler, hkP]
  · simp [tautulliNowPlayingHandler, hkT, hst]
  · simp [tautulliNowPlayingHandler, hkT, hst]
  · cases b with
    | null => exact absurd rfl hb
    | bool x => simp [tautulliNowPlayingHandler, hkT]
    | num x => simp [tautulliNowPlayingHandler, hkT]
    | str x => simp [tautulliNowPlayingHandler, hkT]
    | arr x => simp [tautulliNowPlayingHandler, hkT]
    | obj x => simp [tautulliNowPlayingHandler, hkT]

/-- Witness for the amended C4 at concrete inputs. -/
theorem c4_amended_status_mirroring_witness :
    (nodeStatusHandler { PODBROADCAST_API_KEY := some "k", TAUTULLI_API_KEY := some "t" }
       "pve-master" (.resp 404 "nope" none)).1.status = 404 ∧
    (podmanContainersHandler { PODBROADCAST_API_KEY := some "k", TAUTULLI_API_KEY := some "t" }
       (.resp 404 "nope" none)).1.status = 404 ∧
    (podmanContainersHandler { PODBROADCAST_API_KEY := some "k", TAUTULLI_API_KEY := some "t" }
       (.resp 404 "nope" (some JVal.null))).1.status = 404 ∧
    (podmanContainersHandler { PODBROADCAST_API_KEY := some "k", TAUTULLI_API_KEY := some "t" }
       (.resp 404 "nope" (some (.obj [])))).1.status = 200 ∧
    (tautulliNowPlayingHandler { PODBROADCAST_API_KEY := some "k", TAUTULLI_API_KEY := some "t" }
       (.resp 404 "nope" none)).1.status = 404 ∧
    (tautulliNowPlayingHandler { PODBROADCAST_API_KEY := some "k", TAUTULLI_API_KEY := some "t" }
       (.resp 404 "nope" (some JVal.null))).1.status = 404 ∧
    (tautulliNowPlayingHandler { PODBROADCAST_API_KEY := some "k", TAUTULLI_API_KEY := some "t" }
       (.resp 404 "nope" (some (.obj [])))).1.status = 200 :=
  c4_amended_status_mirroring
    { PODBROADCAST_API_KEY := some "k", TAUTULLI_API_KEY := some "t" }
    "pve-master" 404 "nope" none (.obj []) "k" "t" rfl rfl (by decide)
    (fun h => JVal.noConfusion h)

/-- C5 counterexample: an upstream response whose payload lacks a data
section (here: HTTP 200 with a body that does not parse as JSON) is
answered with the upstream status 200, not with the fixed 502 the claim
requires (server.js line 120 uses `proxRes.status || 502`). -/
theorem c5_no_data_not_fixed_502 :
    (vmOnlineHandler {} "108" (some "pve-gamehost") (.resp 200 "oops" none)).1.status = 200 ∧
    (vmOnlineHandler {} "108" (some "pve-gamehost") (.resp 200 "oops" none)).1.status ≠ 502 := by
  constructor <;> decide

/-- C5 amended: when the upstream payload lacks a data section, the
VM-online endpoint responds with the upstream HTTP status (502 is used
only when no upstream status number is available) and an explanatory
body carrying `online:false`, `status:"unknown"` and the raw upstream
status. -/
theorem c5_amended_no_data_mirrors_upstream (env : Env) (vmid : String)
    (qn : Option String) (st : Nat) (text : String) (j : Option JVal)
    (hst : st ≠ 0)
    (hdata : truthyOpt (j.bind (fun b => jlookup b "data")) = false) :
    (vmOnlineHandler env vmid qn (.resp st text j)).1 =
      ⟨st, .json (.obj [("vmid", .str vmid), ("node", .str (vmOnlineNode qn)),
                        ("online", .bool false), ("status", .str "unknown"),
                        ("proxmox_status", .num (st : ℚ)),
                        ("body", j.getD .null)])⟩ := by
  simp [vmOnlineHandler, hdata, hst]

/-- Witness for the amended C5: upstream 404 with an unparseable body. -/
theorem c5_amended_no_data_mirrors_upstream_witness :
    (vmOnlineHandler {} "108" none (.resp 404 "bad gateway" none)).1 =
      ⟨404, .json (.obj [("vmid", .str "108"), ("node", .str "pve-gamehost"),
                         ("online", .bool false), ("status", .str "unknown"),
                         ("proxmox_status", .num (404 : ℚ)),
                         ("body", JVal.null)])⟩ :=
  c5_amended_no_data_mirrors_upstream {} "108" none 404 "bad gateway" none
    (by decide) rfl

/-- C6 counterexample: for the payload with data section whose `status`
is the empty string, the endpoint reports the fallback status "stopped"
instead of the claimed `status:s` with `s = ""` (server.js line 124:
`body.data.status || ...` treats the empty string as falsy). -/
theorem c6_empty_status_not_returned :
    jGetStr (respJson (vmOnlineHandler {} "108" (some "pve-gamehost")
        (.resp 200 "x" (some (.obj [("data", .obj [("status", .str "")])])))).1)
      "status" = some "stopped" ∧
    jGetStr (respJson (vmOnlineHandler {} "108" (some "pve-gamehost")
        (.resp 200 "x" (some (.obj [("data", .obj [("status", .str "")])])))).1)
      "status" ≠ some "" := by
  constructor <;> decide

/-- C6 amended: for every upstream payload `data.status = s` with `s`
non-empty, the endpoint answers 200 with `{vmid, node, online, status:s}`
and `online` true exactly when `s` is "running" or "online"; the claimed
concrete instance for vmid 108 follows at `s = "running"`. -/
theorem c6_amended_vm_online (env : Env) (vmid : String) (qn : Option String)
    (st : Nat) (text : String) (s : String) (hs : s ≠ "") :
    (vmOnlineHandler env vmid qn
        (.resp st text (some (.obj [("data", .obj [("status", .str s)])])))).1 =
      ⟨200, .json (.obj [("vmid", .str vmid), ("node", .str (vmOnlineNode qn)),
                         ("online", .bool (s == "running" || s == "online")),
                         ("status", .str s)])⟩ := by
  simp [vmOnlineHandler, jlookup, truthyOpt, jsTruthy, isStrVal, hs]

/-- Witness for the amended C6: the claimed end-to-end instance, vmid 108
on node pve-gamehost with upstream `data.status = "running"`. -/
theorem c6_amended_vm_online_witness :
    (vmOnlineHandler {} "108" (some "pve-gamehost")
        (.resp 200 "\x7b\"data\":\x7b\"status\":\"running\"\x7d\x7d"
          (some (.obj [("data", .obj [("status", .str "running")])])))).1 =
      ⟨200, .json (.obj [("vmid", .str "108"), ("node", .str "pve-gamehost"),
                         ("online", .bool true), ("status", .str "running")])⟩ :=
  c6_amended_vm_online {} "108" (some "pve-gamehost") 200
    "\x7b\"data\":\x7b\"status\":\"running\"\x7d\x7d" "running" (by decide)

/-- C7 counterexample: a numeric `cpu` of -1 (an out-of-range input)
normalizes to -100, which does not lie within the claimed range
[0,100] — src/app.js line 160 clamps only from above with
`Math.min(100, cpu)`. -/
theorem c7_negative_cpu_escapes_range :
    fetchNodeStatusCpu { cpu := some (-1) } = some (-100) ∧
    ¬((0:ℚ) ≤ -100 ∧ (-100:ℚ) ≤ 100) := by
  constructor
  · simp only [fetchNodeStatusCpu]
    norm_num
  · norm_num

/-- C7 amended: for a `cpu` fraction in [0,1] the normalized value is
exactly `cpu * 100` (which lies in [0,100]); every non-null normalized
value is at most 100; and the lower bound 0 additionally holds whenever
the source field used is non-negative (there is no lower clamp). -/
theorem c7_amended_cpu_normalization :
    (∀ (c : ℚ) (u : Option ℚ), 0 ≤ c → c ≤ 1 →
        fetchNodeStatusCpu { cpu := some c, cpu_usage := u } = some (c * 100) ∧
        0 ≤ c * 100 ∧ c * 100 ≤ 100) ∧
    (∀ (d : NodeData) (v : ℚ), fetchNodeStatusCpu d = some v → v ≤ 100) ∧
    (∀ (d : NodeData) (v : ℚ), fetchNodeStatusCpu d = some v →
        (∀ x, d.cpu = some x → 0 ≤ x) → (∀ x, d.cpu_usage = some x → 0 ≤ x) →
        0 ≤ v) := by
  refine ⟨?_, ?_, ?_⟩
  · intro c u h0 h1
    refine ⟨?_, mul_nonneg h0 (by norm_num), by linarith⟩
    simp only [fetchNodeStatusCpu]
    rw [min_eq_right (by linarith)]
  · intro d v h
    rcases hc : d.cpu with _ | c
    · rcases hu : d.cpu_usage with _ | u
      · simp [fetchNodeStatusCpu, hc, hu] at h
      · simp [fetchNodeStatusCpu, hc, hu] at h
        rw [← h]
        exact min_le_left _ _
    · simp [fetchNodeStatusCpu, hc] at h
      rw [← h]
      exact min_le_left _ _
  · intro d v h hcpos hupos
    rcases hc : d.cpu with _ | c
    · rcases hu : d.cpu_usage with _ | u
      · simp [fetchNodeStatusCpu, hc, hu] at h
      · simp [fetchNodeStatusCpu, hc, hu] at h
        rw [← h]
        exact le_min (by norm_num) (hupos u hu)
    · simp [fetchNodeStatusCpu, hc] at h
      rw [← h]
      exact le_min (by norm_num) (mul_nonneg (hcpos c hc) (by norm_num))

/-- Witness for the amended C7 at the fraction one half. -/
theorem c7_amended_cpu_normalization_witness :
    fetchNodeStatusCpu { cpu := some (1/2) } = some ((1/2 : ℚ) * 100) ∧
    (0:ℚ) ≤ (1/2 : ℚ) * 100 ∧ (1/2 : ℚ) * 100 ≤ 100 :=
  c7_amended_cpu_normalization.1 (1/2) none (by norm_num) (by norm_num)

/-- Property access on a falsy value is never defined (falsy values are
not objects). -/
theorem jlookup_of_falsy (v : JVal) (k : String) (h : jsTruthy v = false) :
    jlookup v k = none := by
  cases v <;> simp_all [jsTruthy, jlookup]

/-- Chained property access through a falsy or undefined value is
undefined. -/
theorem bind_jlookup_of_falsy (r : Option JVal) (k : String)
    (h : truthyOpt r = false) : r.bind (fun v => jlookup v k) = none := by
  cases r with
  | none => rfl
  | some v => exact jlookup_of_falsy v k (by simpa [truthyOpt] using h)

/-- Property access on the empty object is undefined. -/
theorem jlookup_obj_nil (k : String) : jlookup (JVal.obj []) k = none := rfl

/-- The session extraction of `renderTautulli` coincides everywhere with
the specification's first-match-wins composition of the four candidate
paths (the truthiness guards in the code are redundant: a falsy
intermediate value never carries an array below it). -/
theorem extractSessions_eq_sessionsSpec (d : JVal) :
    extractSessions d = sessionsSpec d := by
  cases hd : jsTruthy d
  case false =>
    have l1 := jlookup_of_falsy d "sessions" hd
    have l2 := jlookup_of_falsy d "response" hd
    have l3 := jlookup_of_falsy d "data" hd
    simp [extractSessions, sessionsSpec, sessionPath1, sessionPath2, sessionPath3,
      sessionPath4, hd, l1, l2, l3, asArr, truthyOpt, jlookup_obj_nil]
  case true =>
    simp only [extractSessions, sessionsSpec, sessionPath1, sessionPath2,
      sessionPath3, sessionPath4, hd, if_true]
    rcases h1 : asArr (jlookup d "sessions") with _ | xs
    · cases t1 : truthyOpt (jlookup d "response")
      case false =>
        have e2 : (jlookup d "response").bind (fun r => jlookup r "data") = none :=
          bind_jlookup_of_falsy _ _ t1
        have e3 : ((jlookup d "response").bind (fun r => jlookup r "data")).bind
            (fun x => jlookup x "sessions") = none := by rw [e2]; rfl
        cases t3 : truthyOpt (jlookup d "data")
        case false =>
          have e4 := bind_jlookup_of_falsy (jlookup d "data") "sessions" t3
          simp [h1, t1, e2, e3, t3, e4, asArr]
        case true =>
          rcases h4 : asArr ((jlookup d "data").bind (fun x => jlookup x "sessions"))
            with _ | xs
          · simp [h1, t1, e2, e3, t3, h4, asArr]
          · simp [h1, t1, e2, e3, t3, h4, asArr]
      case true =>
        rcases h2 : asArr ((jlookup d "response").bind (fun r => jlookup r "data"))
          with _ | xs
        · cases t2 : truthyOpt ((jlookup d "response").bind (fun r => jlookup r "data"))
          case false =>
            have e3 : ((jlookup d "response").bind (fun r => jlookup r "data")).bind
                (fun x => jlookup x "sessions") = none := bind_jlookup_of_falsy _ _ t2
            cases t3 : truthyOpt (jlookup d "data")
            case false =>
              have e4 := bind_jlookup_of_falsy (jlookup d "data") "sessions" t3
              simp [h1, t1, h2, t2, e3, t3, e4, asArr]
            case true =>
              rcases h4 : asArr ((jlookup d "data").bind (fun x => jlookup x "sessions"))
                with _ | xs
              · simp [h1, t1, h2, t2, e3, t3, h4, asArr]
              · simp [h1, t1, h2, t2, e3, t3, h4, asArr]
          case true =>
            rcases h3 : asArr (((jlookup d "response").bind (fun r => jlookup r "data")).bind
                (fun x => jlookup x "sessions")) with _ | xs
            · cases t3 : truthyOpt (jlookup d "data")
              case false =>
                have e4 := bind_jlookup_of_falsy (jlookup d "data") "sessions" t3
                simp [h1, t1, h2, t2, h3, t3, e4, asArr]
              case true =>
                rcases h4 : asArr ((jlookup d "data").bind (fun x => jlookup x "sessions"))
                  with _ | xs
                · simp [h1, t1, h2, t2, h3, t3, h4]
                · simp [h1, t1, h2, t2, h3, t3, h4]
            · simp [h1, t1, h2, t2, h3]
        · simp [h1, t1, h2]
    · simp [h1]

/-- C8: the session normalizer of `renderTautulli` equals the
first-match-wins composition of the four candidate nesting paths tried in
the claimed order; each of the four shapes carrying the same array yields
that array, an earlier path pre-empts a later one, and absent or
malformed shapes yield the empty sequence (the function is total, so no
error is possible). -/
theorem c8_sessions_four_paths :
    (∀ d, extractSessions d = sessionsSpec d) ∧
    (∀ xs, extractSessions (.obj [("sessions", .arr xs)]) = xs) ∧
    (∀ xs, extractSessions (.obj [("response", .obj [("data", .arr xs)])]) = xs) ∧
    (∀ xs, extractSessions
      (.obj [("response", .obj [("data", .obj [("sessions", .arr xs)])])]) = xs) ∧
    (∀ xs, extractSessions (.obj [("data", .obj [("sessions", .arr xs)])]) = xs) ∧
    (∀ xs ys, extractSessions
      (.obj [("sessions", .arr xs), ("response", .obj [("data", .arr ys)])]) = xs) ∧
    (∀ xs ys, extractSessions
      (.obj [("response", .obj [("data", .obj [("sessions", .arr xs)])]),
             ("data", .obj [("sessions", .arr ys)])]) = xs) ∧
    extractSessions .null = [] ∧
    extractSessions (.str "garbage") = [] ∧
    extractSessions (.obj [("sessions", .str "nope")]) = [] :=
  ⟨extractSessions_eq_sessionsSpec, fun _ => rfl, fun _ => rfl, fun _ => rfl,
   fun _ => rfl, fun _ _ => rfl, fun _ _ => rfl, rfl, rfl, rfl⟩

/-- Transitivity of the initial-segment test. -/
theorem startsWithList_trans : ∀ (p n h : List Char),
    startsWithList p n = true → startsWithList n h = true →
    startsWithList p h = true
  | [], _, _, _, _ => rfl
  | _ :: _, [], _, hp, _ => by simp [startsWithList] at hp
  | _ :: _, _ :: _, [], _, hn => by simp [startsWithList] at hn
  | a :: ps, b :: ns, c :: hs, hp, hn => by
      simp only [startsWithList, Bool.and_eq_true, beq_iff_eq] at hp hn ⊢
      exact ⟨hp.1.trans hn.1, startsWithList_trans ps ns hs hp.2 hn.2⟩

/-- A haystack containing a string contains every initial segment of that
string. -/
theorem containsList_mono : ∀ (hay p n : List Char),
    startsWithList p n = true → containsList hay n = true →
    containsList hay p = true
  | [], p, n, hp, hc => by
      cases n with
      | nil =>
        cases p with
        | nil => rfl
        | cons a as => simp [startsWithList] at hp
      | cons b bs => simp [containsList] at hc
  | c :: t, p, n, hp, hc => by
      simp only [containsList, Bool.or_eq_true] at hc ⊢
      rcases hc with hc | hc
      · exact Or.inl (startsWithList_trans p n (c :: t) hp hc)
      · exact Or.inr (containsList_mono t p n hp hc)

/-- C9 counterexample: the record with `Status = "UP 3 HOURS"` contains
"Up 3 hours" case-insensitively and is running, but its extracted uptime
text is the raw regex match "UP 3 HOURS", not the claimed literal
"Up 3 hours" (src/app.js line 304 keeps the original characters of the
match). -/
theorem c9_uppercase_status_breaks_uptime_text :
    strContains (lowerStr "UP 3 HOURS") "up 3 hours" = true ∧
    isRunning { Status := some "UP 3 HOURS" } = true ∧
    uptimeText { Status := some "UP 3 HOURS" } = "UP 3 HOURS" ∧
    "UP 3 HOURS" ≠ "Up 3 hours" := by
  refine ⟨?_, ?_, ?_, ?_⟩ <;> decide

/-- C9 amended: the running flag is characterized exactly by the claimed
four-way disjunction; every record whose `Status` contains "Up 3 hours"
case-insensitively is running; and the extracted uptime text equals
"Up 3 hours" when the matched `Up …` run is exactly that string — for
example for `Status = "Up 3 hours"` or `Status = "Up 3 hours (healthy)"`
— but not for arbitrary statuses containing the phrase. -/
theorem c9_amended_running_and_uptime :
    (∀ c : ContainerRec, isRunning c = true ↔
        (c.State = some "running" ∨
         (∃ s, c.Status = some s ∧ strContains (lowerStr s) "up" = true) ∨
         c.Online = some (.bool true) ∨
         (c.ExitCode = some 0 ∧ truthyOpt c.Exited = false))) ∧
    (∀ (c : ContainerRec) (s : String), c.Status = some s →
        strContains (lowerStr s) "up 3 hours" = true → isRunning c = true) ∧
    uptimeText { Status := some "Up 3 hours" } = "Up 3 hours" ∧
    uptimeText { Status := some "Up 3 hours (healthy)" } = "Up 3 hours" ∧
    isRunning { Status := some "Up 3 hours" } = true := by
  refine ⟨?_, ?_, by decide, by decide, by decide⟩
  · intro c
    rcases c with ⟨st, stat, onl, ec, ex, r1, r2, r3⟩
    simp only [isRunning, Bool.or_eq_true, Bool.and_eq_true, beq_iff_eq,
      Bool.not_eq_true']
    constructor
    · intro h
      rcases h with ((h | h) | h) | h
      · exact Or.inl h
      · refine Or.inr (Or.inl ?_)
        cases stat with
        | none => simp at h
        | some s =>
          simp only [Bool.and_eq_true, bne_iff_ne] at h
          exact ⟨s, rfl, h.2⟩
      · refine Or.inr (Or.inr (Or.inl ?_))
        cases onl with
        | none => simp at h
        | some v =>
          cases v with
          | bool b =>
            cases b with
            | false => simp at h
            | true => rfl
          | null => simp at h
          | num q => simp at h
          | str s => simp at h
          | arr a => simp at h
          | obj o => simp at h
      · exact Or.inr (Or.inr (Or.inr h))
    · intro h
      rcases h with h | ⟨s, hs, hc⟩ | h | h
      · exact Or.inl (Or.inl (Or.inl h))
      · refine Or.inl (Or.inl (Or.inr ?_))
        cases hs
        simp only [Bool.and_eq_true, bne_iff_ne]
        refine ⟨?_, hc⟩
        intro he
        subst he
        simp [strContains, lowerStr, containsList] at hc
      · refine Or.inl (Or.inr ?_)
        cases h
        rfl
      · exact Or.inr h
  · intro c s hst hcont
    have hup : strContains (lowerStr s) "up" = true :=
      containsList_mono (lowerStr s).data "up".data "up 3 hours".data
        (by decide) hcont
    have hs : s ≠ "" := by
      intro he
      subst he
      simp [strContains, lowerStr, containsList] at hcont
    simp only [isRunning, hst]
    simp [hs, hup]

/-- Witness for the amended C9: a concrete record whose status phrase
contains "Up 3 hours" is running. -/
theorem c9_amended_running_and_uptime_witness :
    isRunning { Status := some "Up 3 hours (healthy)" } = true :=
  c9_amended_running_and_uptime.2.1 { Status := some "Up 3 hours (healthy)" }
    "Up 3 hours (healthy)" rfl (by decide)
